import Mathlib

/-!
Verification of the Snowball Earth energy balance model
(src/snowball_earth_model.py) against its specification.

The Python module computes with IEEE floats and numpy arrays; we embed it
shallowly over the real numbers: scalars become `ℝ`, numpy arrays become
`List ℝ` with elementwise operations, `np.clip` becomes `min`/`max`, and the
solver loop becomes a fuel-indexed recursion (`max_iterations` is the fuel;
Python `range(n)` is empty for `n ≤ 0`, so the fuel is a natural number).
-/

noncomputable section

open Real

/-- Embedding of `np.clip(x, lo, hi)` for scalars: `min(max(x, lo), hi)`. -/
def clip (x lo hi : ℝ) : ℝ := min (max x lo) hi

/-- Physical constant `STEFAN_BOLTZMANN = 5.67e-8` from the source. -/
def STEFAN_BOLTZMANN : ℝ := 5.67e-8

/-- Physical constant `SOLAR_CONSTANT = 1365` from the source. -/
def SOLAR_CONSTANT : ℝ := 1365

/-- Embedding of `albedo(temperature)` from the source: a smooth tanh
transition between the water albedo 0.3 and the ice albedo 0.6, centered at
the freezing point 273.15 K with a 10 K width. -/
def albedo (temperature : ℝ) : ℝ :=
  let T_freeze : ℝ := 273.15
  let alpha_ice : ℝ := 0.6
  let alpha_water : ℝ := 0.3
  alpha_water + (alpha_ice - alpha_water) * 0.5
    * (1 - Real.tanh ((temperature - T_freeze) / 10))

/-- Embedding of `greenhouse_effect(temperature)` from the source:
a linear emissivity clipped into [0.5, 0.8]. -/
def greenhouse_effect (temperature : ℝ) : ℝ :=
  let epsilon_base : ℝ := 0.61
  let epsilon_sensitivity : ℝ := 0.0001
  clip (epsilon_base + epsilon_sensitivity * (temperature - 273.15)) 0.5 0.8

/-- Embedding of `energy_balance(temperature, solar_multiplier)` from the
source: absorbed sphere-averaged solar flux minus Stefan-Boltzmann
emission. -/
def energy_balance (temperature solar_multiplier : ℝ) : ℝ :=
  let S := SOLAR_CONSTANT * solar_multiplier
  let alpha := albedo temperature
  let epsilon := greenhouse_effect temperature
  let energy_in := (1 - alpha) * S / 4
  let energy_out := epsilon * STEFAN_BOLTZMANN * temperature ^ 4
  energy_in - energy_out

/-- Embedding of the vectorized evaluation of `energy_balance` over a numpy
array of temperatures: each numpy operation acts elementwise (`map` for
operations against scalars, `zipWith` for operations between two arrays),
exactly as broadcasting does in the source. -/
def energy_balance_vec (temperatures : List ℝ) (solar_multiplier : ℝ) : List ℝ :=
  let S := SOLAR_CONSTANT * solar_multiplier
  let alpha := temperatures.map albedo
  let epsilon := temperatures.map greenhouse_effect
  let energy_in := alpha.map (fun a => (1 - a) * S / 4)
  let energy_out := List.zipWith (fun e t => e * STEFAN_BOLTZMANN * t ^ 4) epsilon temperatures
  List.zipWith (fun i o => i - o) energy_in energy_out

/-- The loop body of `find_equilibrium_temperature` from the source, run with
explicit fuel: compute the balance, return `(T, true)` on convergence,
otherwise update by `0.1 * balance` and clip into [150, 400].  The time step
factor `dt = 0.1` is inlined. -/
def find_equilibrium_loop (solar_multiplier tolerance : ℝ) : ℕ → ℝ → ℝ × Bool
  | 0, temperature => (temperature, false)
  | n + 1, temperature =>
    let balance := energy_balance temperature solar_multiplier
    if |balance| < tolerance then (temperature, true)
    else find_equilibrium_loop solar_multiplier tolerance n
      (clip (temperature + 0.1 * balance) 150 400)

/-- Embedding of `find_equilibrium_temperature(initial_temp, solar_multiplier,
max_iterations, tolerance)` from the source.  The Python defaults are
`initial_temp=288, solar_multiplier=1.0, max_iterations=1000,
tolerance=0.01`; callers pass them explicitly here. -/
def find_equilibrium_temperature (initial_temp solar_multiplier : ℝ)
    (max_iterations : ℕ) (tolerance : ℝ) : ℝ × Bool :=
  find_equilibrium_loop solar_multiplier tolerance max_iterations initial_temp

/-- One update step of the solver: the temperature after the non-converged
branch of the loop body (update by `0.1 * balance`, then clip). -/
def solver_step (solar_multiplier T : ℝ) : ℝ :=
  clip (T + 0.1 * energy_balance T solar_multiplier) 150 400

/-- The solver loop exactly as the specification words it, written
independently of the source embedding: starting from T, repeat at most
`max_iterations` times: compute the balance; if its absolute value is below
the tolerance return `(T, true)`; otherwise set `T := T + 0.1 * balance`
and clamp T into [150, 400]; on exhaustion return `(T, false)` with the
last computed T. -/
def find_equilibrium_spec_loop (solar_multiplier tolerance : ℝ) : ℕ → ℝ → ℝ × Bool
  | 0, T => (T, false)
  | n + 1, T =>
    if |energy_balance T solar_multiplier| < tolerance then (T, true)
    else find_equilibrium_spec_loop solar_multiplier tolerance n
      (min (max (T + 0.1 * energy_balance T solar_multiplier) 150) 400)

/-- The whole solver as the specification words it. -/
def find_equilibrium_temperature_spec (initial_temp solar_multiplier : ℝ)
    (max_iterations : ℕ) (tolerance : ℝ) : ℝ × Bool :=
  find_equilibrium_spec_loop solar_multiplier tolerance max_iterations initial_temp

/-! ### The snowball experiment sweep (run_snowball_experiment) -/

/-- The per-multiplier selection inside run_snowball_experiment: run the
solver seeded warm at 288 K and cold at 230 K (default budget 1000 and
tolerance 0.01), keep the warm temperature if that run converged, else the
cold temperature if that run converged, else record a missing value (np.nan
in the source, `none` here). -/
def choose_equilibrium (solar_mult : ℝ) : Option ℝ :=
  let warm := find_equilibrium_temperature 288 solar_mult 1000 0.01
  let cold := find_equilibrium_temperature 230 solar_mult 1000 0.01
  if warm.2 then some warm.1 else if cold.2 then some cold.1 else none

/-- The same selection as the specification words it: pick the
warm-converged result if available, else the cold-converged result, else
mark the data point as missing. -/
def choose_equilibrium_spec (solar_mult : ℝ) : Option ℝ :=
  match find_equilibrium_temperature 288 solar_mult 1000 0.01,
      find_equilibrium_temperature 230 solar_mult 1000 0.01 with
  | (Tw, true), _ => some Tw
  | (_, false), (Tc, true) => some Tc
  | (_, false), (_, false) => none

/-- A recorded data point counts as below freezing when it carries a value
below 273.15 K; a missing value does not (in the source `np.nan < 273.15`
evaluates to False). -/
def below_freezing : Option ℝ → Prop
  | none => False
  | some t => t < 273.15

/-- The scan at the end of run_snowball_experiment: walk the multiplier
list and the temperature list in parallel and return the multiplier at the
first position whose temperature is below 273.15 K. -/
def first_below_freezing : List ℝ → List (Option ℝ) → Option ℝ
  | [], _ => none
  | _ :: _, [] => none
  | _ :: ms, none :: os => first_below_freezing ms os
  | m :: ms, some t :: os =>
    if t < 273.15 then some m else first_below_freezing ms os

/-- The twenty solar multipliers `np.linspace(0.85, 1.05, 20)` of the
sweep. -/
def solar_multipliers : List ℝ :=
  (List.range 20).map (fun i => 0.85 + i * ((1.05 - 0.85) / 19))

/-- The chosen equilibrium temperature series of run_snowball_experiment. -/
def equilibrium_temps : List (Option ℝ) := solar_multipliers.map choose_equilibrium

/-- The critical solar multiplier reported by run_snowball_experiment. -/
def critical_solar : Option ℝ :=
  first_below_freezing solar_multipliers equilibrium_temps

/-- The balance function at solar multiplier 1 with the emissivity clip
removed; on [283, 290] it agrees with energy_balance (the clip is inactive
there). -/
def balance_smooth (T : ℝ) : ℝ :=
  (0.55 + 0.15 * Real.tanh ((T - 273.15) / 10)) * (1365 / 4) -
    (0.61 + 0.0001 * (T - 273.15)) * 5.67e-8 * T ^ 4

/-- Derivative of balance_smooth. -/
def balance_deriv (T : ℝ) : ℝ :=
  0.15 * ((1 - Real.tanh ((T - 273.15) / 10) ^ 2) * (1 / 10)) * (1365 / 4) -
    (0.0001 * 5.67e-8 * T ^ 4 +
      (0.61 + 0.0001 * (T - 273.15)) * 5.67e-8 * (4 * T ^ 3))

/-- The solver update map on the warm window, without the (inactive)
clip. -/
def step_smooth (T : ℝ) : ℝ := T + 0.1 * balance_smooth T

/-! ### Basic lemmas about the solver loop -/

theorem find_equilibrium_loop_zero (m tol T : ℝ) :
    find_equilibrium_loop m tol 0 T = (T, false) := rfl

theorem find_equilibrium_loop_succ (m tol T : ℝ) (n : ℕ) :
    find_equilibrium_loop m tol (n + 1) T =
      if |energy_balance T m| < tol then (T, true)
      else find_equilibrium_loop m tol n (solver_step m T) := rfl

theorem clip_le (x lo hi : ℝ) : clip x lo hi ≤ hi := min_le_right _ _

theorem le_clip (x lo hi : ℝ) (h : lo ≤ hi) : lo ≤ clip x lo hi :=
  le_min (le_trans (le_max_right x lo) (le_refl _)) h

theorem solver_step_mem (m T : ℝ) :
    150 ≤ solver_step m T ∧ solver_step m T ≤ 400 :=
  ⟨le_clip _ _ _ (by norm_num), clip_le _ _ _⟩

theorem find_equilibrium_loop_range (m tol : ℝ) :
    ∀ (n : ℕ) (T : ℝ), 150 ≤ T → T ≤ 400 →
      150 ≤ (find_equilibrium_loop m tol n T).1 ∧
        (find_equilibrium_loop m tol n T).1 ≤ 400 := by
  intro n
  induction n with
  | zero => intro T h1 h2; exact ⟨h1, h2⟩
  | succ k ih =>
    intro T h1 h2
    rw [find_equilibrium_loop_succ]
    by_cases hb : |energy_balance T m| < tol
    · rw [if_pos hb]; exact ⟨h1, h2⟩
    · rw [if_neg hb]
      exact ih (solver_step m T) (solver_step_mem m T).1 (solver_step_mem m T).2

/-- With a nonpositive tolerance the convergence test never succeeds, so
the loop performs all of its update steps and ends not converged. -/
theorem find_equilibrium_loop_nonpos_tol (m tol : ℝ) (htol : tol ≤ 0) :
    ∀ (n : ℕ) (T : ℝ),
      find_equilibrium_loop m tol n T = ((solver_step m)^[n] T, false) := by
  intro n
  induction n with
  | zero => intro T; rfl
  | succ k ih =>
    intro T
    rw [find_equilibrium_loop_succ, if_neg, ih, Function.iterate_succ_apply]
    exact fun h => absurd (lt_of_le_of_lt (abs_nonneg _) h) (not_lt.mpr htol)

/-- C1 counterexample helper: with zero iterations the solver returns the
initial temperature unchanged. -/
theorem find_equilibrium_zero_iterations (T0 m tol : ℝ) :
    find_equilibrium_temperature T0 m 0 tol = (T0, false) := rfl

/-- C1 (amended claim).  If the initial temperature lies within [150, 400],
then the temperature returned by find_equilibrium_temperature (whether
converged or not) lies within [150, 400], for every solar multiplier,
iteration budget and tolerance. -/
theorem find_equilibrium_range (initial_temp solar_multiplier tol : ℝ)
    (max_iterations : ℕ) (h1 : 150 ≤ initial_temp) (h2 : initial_temp ≤ 400) :
    150 ≤ (find_equilibrium_temperature initial_temp solar_multiplier
        max_iterations tol).1 ∧
      (find_equilibrium_temperature initial_temp solar_multiplier
        max_iterations tol).1 ≤ 400 :=
  find_equilibrium_loop_range solar_multiplier tol max_iterations initial_temp h1 h2

/-- Witness for the amended C1 at a concrete input. -/
theorem find_equilibrium_range_witness :
    ((150 : ℝ) ≤ 288 ∧ (288 : ℝ) ≤ 400) ∧
      (150 ≤ (find_equilibrium_temperature 288 1 0 0.01).1 ∧
        (find_equilibrium_temperature 288 1 0 0.01).1 ≤ 400) :=
  ⟨⟨by norm_num, by norm_num⟩,
    find_equilibrium_range 288 1 0.01 0 (by norm_num) (by norm_num)⟩

/-- C1 counterexample: with `initial_temp = 500` and `max_iterations = 0` the
solver returns 500, which is outside [150, 400]; the claimed invariant fails
for inputs whose initial temperature lies outside the range. -/
theorem find_equilibrium_range_counterexample :
    (find_equilibrium_temperature 500 1 0 0.01).1 = 500 ∧
      ¬((150 : ℝ) ≤ (find_equilibrium_temperature 500 1 0 0.01).1 ∧
        (find_equilibrium_temperature 500 1 0 0.01).1 ≤ 400) := by
  constructor
  · rfl
  · rw [find_equilibrium_zero_iterations]
    norm_num

/-- C2.  find_equilibrium_temperature implements exactly the loop stated by
the specification: starting from `T = initial_temp` it repeats at most
`max_iterations` times: compute the balance; if `|balance| < tolerance`
return `(T, true)`; otherwise set `T := T + 0.1 * balance` and clamp into
[150, 400]; on exhaustion return `(T, false)` with the last computed T. -/
theorem find_equilibrium_refines_spec (initial_temp solar_multiplier tol : ℝ)
    (max_iterations : ℕ) :
    find_equilibrium_temperature initial_temp solar_multiplier max_iterations tol =
      find_equilibrium_temperature_spec initial_temp solar_multiplier
        max_iterations tol := by
  show find_equilibrium_loop _ _ _ _ = find_equilibrium_spec_loop _ _ _ _
  induction max_iterations generalizing initial_temp with
  | zero => rfl
  | succ k ih =>
    rw [find_equilibrium_loop_succ, find_equilibrium_spec_loop]
    by_cases hb : |energy_balance initial_temp solar_multiplier| < tol
    · rw [if_pos hb, if_pos hb]
    · rw [if_neg hb, if_neg hb, ih]
      rfl

/-- C5.  find_equilibrium_temperature is deterministic: two runs with
identical arguments agree in both the returned temperature and the returned
convergence flag.  In this embedding the solver is a pure function of its
four arguments, so the two components of the two results are definitionally
equal. -/
theorem find_equilibrium_deterministic (initial_temp solar_multiplier tol : ℝ)
    (max_iterations : ℕ) :
    (find_equilibrium_temperature initial_temp solar_multiplier max_iterations tol).1 =
        (find_equilibrium_temperature initial_temp solar_multiplier max_iterations tol).1 ∧
      (find_equilibrium_temperature initial_temp solar_multiplier max_iterations tol).2 =
        (find_equilibrium_temperature initial_temp solar_multiplier max_iterations tol).2 :=
  ⟨rfl, rfl⟩

/-- C3 (amended claim).  find_equilibrium_temperature performs no input
validation: for a zero or negative tolerance it does not fail, the
convergence test `|balance| < tolerance` simply never succeeds, so the
solver performs all `max_iterations` clipped update steps and returns the
last temperature with `converged = false`; only `max_iterations` prevents
an infinite loop. -/
theorem find_equilibrium_nonpos_tolerance (initial_temp solar_multiplier tol : ℝ)
    (max_iterations : ℕ) (htol : tol ≤ 0) :
    find_equilibrium_temperature initial_temp solar_multiplier max_iterations tol =
      ((solver_step solar_multiplier)^[max_iterations] initial_temp, false) :=
  find_equilibrium_loop_nonpos_tol solar_multiplier tol htol max_iterations initial_temp

/-- Witness for the amended C3 at a concrete input. -/
theorem find_equilibrium_nonpos_tolerance_witness :
    (0 : ℝ) ≤ 0 ∧
      find_equilibrium_temperature 300 1 1 0 = ((solver_step 1)^[1] 300, false) :=
  ⟨le_refl 0, find_equilibrium_nonpos_tolerance 300 1 0 1 (le_refl 0)⟩

/-- C3 counterexample: called with the invalid tolerance `-1`, the solver
does not fail fast with an invalid-configuration condition; it runs its loop
and returns an ordinary result (an updated temperature paired with
`converged = false`). -/
theorem find_equilibrium_no_validation_counterexample :
    find_equilibrium_temperature 300 1 1 (-1) = (solver_step 1 300, false) := by
  show find_equilibrium_loop 1 (-1) 1 300 = _
  rw [find_equilibrium_loop_succ, if_neg, find_equilibrium_loop_zero]
  intro h
  exact absurd (lt_of_le_of_lt (abs_nonneg _) h) (by norm_num)

/-- C10.  The solver never clamps or modifies the initial temperature before
the first convergence check: with an empty iteration budget it returns
`(initial_temp, false)`, and whenever the first computed balance already
meets the tolerance it returns `(initial_temp, true)` - in both cases the
returned temperature is exactly `initial_temp`, with no range restriction
on it. -/
theorem find_equilibrium_initial_temp_unchanged :
    (∀ (initial_temp solar_multiplier tol : ℝ),
        find_equilibrium_temperature initial_temp solar_multiplier 0 tol =
          (initial_temp, false)) ∧
      ∀ (initial_temp solar_multiplier tol : ℝ) (n : ℕ),
        |energy_balance initial_temp solar_multiplier| < tol →
          find_equilibrium_temperature initial_temp solar_multiplier (n + 1) tol =
            (initial_temp, true) := by
  constructor
  · intro T0 m tol; rfl
  · intro T0 m tol n hb
    show find_equilibrium_loop m tol (n + 1) T0 = _
    rw [find_equilibrium_loop_succ, if_pos hb]

/-- C4.  energy_balance equals the specified closed formula, and evaluating
it over an array of temperatures, with every numpy operation applied
elementwise, yields exactly the per-element scalar values. -/
theorem energy_balance_formula_and_vectorized :
    (∀ T m : ℝ, energy_balance T m =
        (1 - albedo T) * (1365 * m) / 4 -
          greenhouse_effect T * 5.67e-8 * T ^ 4) ∧
      ∀ (temperatures : List ℝ) (m : ℝ),
        energy_balance_vec temperatures m =
          temperatures.map (fun T => energy_balance T m) := by
  constructor
  · intro T m
    show (1 - albedo T) * (SOLAR_CONSTANT * m) / 4 -
        greenhouse_effect T * STEFAN_BOLTZMANN * T ^ 4 = _
    rw [SOLAR_CONSTANT, STEFAN_BOLTZMANN]
  · intro ts m
    induction ts with
    | nil => rfl
    | cons t ts ih =>
      show List.zipWith _ (List.map _ (List.map albedo (t :: ts))) _ = _
      simpa [energy_balance_vec, energy_balance] using ih

/-! ### Range of the hyperbolic tangent -/

theorem tanh_lt_one (x : ℝ) : Real.tanh x < 1 := by
  rw [Real.tanh_eq_sinh_div_cosh, div_lt_one (Real.cosh_pos x)]
  have h := Real.cosh_sub_sinh x
  have := Real.exp_pos (-x)
  linarith

theorem neg_one_lt_tanh (x : ℝ) : -1 < Real.tanh x := by
  rw [Real.tanh_eq_sinh_div_cosh, lt_div_iff₀ (Real.cosh_pos x)]
  have h := Real.cosh_add_sinh x
  have := Real.exp_pos x
  linarith

theorem albedo_eq (T : ℝ) :
    albedo T = 0.3 + (0.6 - 0.3) * 0.5 * (1 - Real.tanh ((T - 273.15) / 10)) := rfl

theorem albedo_mem (T : ℝ) : 0.3 < albedo T ∧ albedo T < 0.6 := by
  have h1 := tanh_lt_one ((T - 273.15) / 10)
  have h2 := neg_one_lt_tanh ((T - 273.15) / 10)
  rw [albedo_eq]
  constructor <;> nlinarith

/-- C6.  albedo satisfies the specified tanh formula; at the freezing point
273.15 K it equals exactly the transition midpoint 0.45; and for every
temperature its value lies strictly between 0.3 and 0.6. -/
theorem albedo_formula_midpoint_range :
    (∀ T : ℝ, albedo T =
        0.3 + (0.6 - 0.3) * 0.5 * (1 - Real.tanh ((T - 273.15) / 10))) ∧
      albedo 273.15 = 0.45 ∧
      ∀ T : ℝ, 0.3 < albedo T ∧ albedo T < 0.6 := by
  refine ⟨albedo_eq, ?_, albedo_mem⟩
  have h : ((273.15 : ℝ) - 273.15) / 10 = 0 := by norm_num
  rw [albedo_eq, h, Real.tanh_zero]
  norm_num

theorem greenhouse_eq (T : ℝ) :
    greenhouse_effect T = clip (0.61 + 0.0001 * (T - 273.15)) 0.5 0.8 := rfl

/-- C7.  greenhouse_effect equals the linear emissivity clipped into
[0.5, 0.8]; it is non-decreasing in the temperature; and its value lies in
[0.5, 0.8] for every real temperature. -/
theorem greenhouse_formula_monotone_range :
    (∀ T : ℝ, greenhouse_effect T = clip (0.61 + 0.0001 * (T - 273.15)) 0.5 0.8) ∧
      (∀ T1 T2 : ℝ, T1 ≤ T2 → greenhouse_effect T1 ≤ greenhouse_effect T2) ∧
      ∀ T : ℝ, 0.5 ≤ greenhouse_effect T ∧ greenhouse_effect T ≤ 0.8 := by
  refine ⟨greenhouse_eq, ?_, ?_⟩
  · intro T1 T2 h
    rw [greenhouse_eq, greenhouse_eq, clip, clip]
    exact min_le_min (max_le_max (by linarith) (le_refl _)) (le_refl _)
  · intro T
    rw [greenhouse_eq]
    exact ⟨le_clip _ _ _ (by norm_num), clip_le _ _ _⟩

/-- Witness for C7 at concrete temperatures. -/
theorem greenhouse_monotone_witness :
    (270 : ℝ) ≤ 280 ∧ greenhouse_effect 270 ≤ greenhouse_effect 280 :=
  ⟨by norm_num, greenhouse_formula_monotone_range.2.1 270 280 (by norm_num)⟩

theorem energy_balance_eq (T m : ℝ) :
    energy_balance T m = (1 - albedo T) * (SOLAR_CONSTANT * m) / 4 -
      greenhouse_effect T * STEFAN_BOLTZMANN * T ^ 4 := rfl

/-- Witness for C10 at a concrete input: at `initial_temp = 0` (far outside
[150, 400]) with a huge tolerance, the first balance already meets the
tolerance and the solver returns exactly `(0, true)`. -/
theorem find_equilibrium_initial_temp_witness :
    |energy_balance 0 1| < 1000 ∧
      find_equilibrium_temperature 0 1 1 1000 = (0, true) := by
  have hm := albedo_mem 0
  have hb : |energy_balance 0 1| < 1000 := by
    rw [energy_balance_eq, SOLAR_CONSTANT, STEFAN_BOLTZMANN, abs_lt]
    norm_num
    constructor <;> nlinarith [hm.1, hm.2]
  exact ⟨hb, find_equilibrium_initial_temp_unchanged.2 0 1 1000 0 hb⟩

/-- C8.  run_snowball_experiment records, per multiplier, the warm-seeded
temperature if the warm run converged, else the cold-seeded temperature if
the cold run converged, else a missing value; and for a strictly increasing
multiplier list the scan reports as critical threshold a multiplier whose
chosen temperature is below 273.15 K and which is the lowest among all
multipliers whose chosen temperature is below 273.15 K. -/
theorem snowball_selection_and_threshold :
    (∀ m : ℝ, choose_equilibrium m = choose_equilibrium_spec m) ∧
      ∀ (ms : List ℝ) (os : List (Option ℝ)) (c : ℝ),
        List.Pairwise (· < ·) ms →
        first_below_freezing ms os = some c →
        (∃ p ∈ List.zip ms os, p.1 = c ∧ below_freezing p.2) ∧
          ∀ p ∈ List.zip ms os, below_freezing p.2 → c ≤ p.1 := by
  constructor
  · intro m
    cases h1 : find_equilibrium_temperature 288 m 1000 0.01 with
    | mk Tw cw =>
      cases h2 : find_equilibrium_temperature 230 m 1000 0.01 with
      | mk Tc cc =>
        cases cw <;> cases cc <;>
          simp [choose_equilibrium, choose_equilibrium_spec, h1, h2]
  · intro ms
    induction ms with
    | nil =>
      intro os c _ h
      exact absurd h (by simp [first_below_freezing])
    | cons m ms ih =>
      intro os c hpw h
      rw [List.pairwise_cons] at hpw
      cases os with
      | nil => exact absurd h (by simp [first_below_freezing])
      | cons o os =>
        cases o with
        | none =>
          rw [show first_below_freezing (m :: ms) (none :: os) =
              first_below_freezing ms os from rfl] at h
          obtain ⟨⟨p, hp, hpc, hpb⟩, hmin⟩ := ih os c hpw.2 h
          rw [List.zip_cons_cons]
          refine ⟨⟨p, List.mem_cons_of_mem _ hp, hpc, hpb⟩, ?_⟩
          intro q hq hqb
          rcases List.mem_cons.mp hq with hq1 | hq2
          · subst hq1; exact absurd hqb (by simp [below_freezing])
          · exact hmin q hq2 hqb
        | some t =>
          rw [show first_below_freezing (m :: ms) (some t :: os) =
              if t < 273.15 then some m else first_below_freezing ms os
              from rfl] at h
          by_cases ht : t < 273.15
          · rw [if_pos ht] at h
            injection h with h
            rw [List.zip_cons_cons]
            refine ⟨⟨(m, some t), List.mem_cons_self _ _, h, ht⟩, ?_⟩
            intro q hq hqb
            rcases List.mem_cons.mp hq with hq1 | hq2
            · subst hq1; exact le_of_eq h.symm
            · exact le_trans (le_of_eq h.symm) (le_of_lt (hpw.1 q.1 (List.of_mem_zip hq2).1))
          · rw [if_neg ht] at h
            obtain ⟨⟨p, hp, hpc, hpb⟩, hmin⟩ := ih os c hpw.2 h
            rw [List.zip_cons_cons]
            refine ⟨⟨p, List.mem_cons_of_mem _ hp, hpc, hpb⟩, ?_⟩
            intro q hq hqb
            rcases List.mem_cons.mp hq with hq1 | hq2
            · subst hq1
              simp only [below_freezing] at hqb
              exact absurd hqb ht
            · exact hmin q hq2 hqb

/-- Witness for C8 at concrete inputs. -/
theorem snowball_threshold_witness :
    (choose_equilibrium 1 = choose_equilibrium_spec 1) ∧
      List.Pairwise (· < ·) [(0.9 : ℝ), 1.0] ∧
      first_below_freezing [(0.9 : ℝ), 1.0] [none, some 270] = some 1.0 ∧
      ((∃ p ∈ List.zip [(0.9 : ℝ), 1.0] [(none : Option ℝ), some 270],
          p.1 = 1.0 ∧ below_freezing p.2) ∧
        ∀ p ∈ List.zip [(0.9 : ℝ), 1.0] [(none : Option ℝ), some 270],
          below_freezing p.2 → (1.0 : ℝ) ≤ p.1) := by
  have hpw : List.Pairwise (· < ·) [(0.9 : ℝ), 1.0] := by
    norm_num [List.pairwise_cons]
  have hf : first_below_freezing [(0.9 : ℝ), 1.0] [none, some 270] = some 1.0 := by
    show (if (270 : ℝ) < 273.15 then some (1.0 : ℝ)
        else first_below_freezing [] []) = some 1.0
    rw [if_pos (by norm_num)]
  exact ⟨snowball_selection_and_threshold.1 1, hpw, hf,
    snowball_selection_and_threshold.2 _ _ _ hpw hf⟩

/-! ### Convergence analysis of the solver at present-day input (C9)

On the warm window [283, 290] the emissivity clip is inactive, so the
balance function is a smooth function of the temperature there.  We bound
its derivative on the window, obtain a contraction estimate for the update
map, and follow the solver trajectory from 288 K. -/

theorem hasDerivAt_tanh (x : ℝ) :
    HasDerivAt Real.tanh (1 - Real.tanh x ^ 2) x := by
  have hc := (Real.cosh_pos x).ne'
  have h := (Real.hasDerivAt_sinh x).div (Real.hasDerivAt_cosh x) hc
  have hfun : (fun y => Real.sinh y / Real.cosh y) = Real.tanh :=
    funext fun y => (Real.tanh_eq_sinh_div_cosh y).symm
  rw [hfun] at h
  convert h using 1
  rw [Real.tanh_eq_sinh_div_cosh, div_pow]
  have hc2 : Real.cosh x ^ 2 ≠ 0 := pow_ne_zero 2 hc
  field_simp
  nlinarith [Real.cosh_sq_sub_sinh_sq x]

theorem greenhouse_linear_on (T : ℝ) (h1 : 283 ≤ T) (h2 : T ≤ 290) :
    greenhouse_effect T = 0.61 + 0.0001 * (T - 273.15) := by
  rw [greenhouse_eq, clip, max_eq_left (by linarith), min_eq_left (by linarith)]

theorem energy_balance_eq_smooth (T : ℝ) (h1 : 283 ≤ T) (h2 : T ≤ 290) :
    energy_balance T 1 = balance_smooth T := by
  rw [energy_balance_eq, greenhouse_linear_on T h1 h2, SOLAR_CONSTANT,
    STEFAN_BOLTZMANN, albedo_eq, balance_smooth]
  ring

theorem hasDerivAt_balance_smooth (T : ℝ) :
    HasDerivAt balance_smooth (balance_deriv T) T := by
  have harg : HasDerivAt (fun T : ℝ => (T - 273.15) / 10) (1 / 10) T := by
    simpa using ((hasDerivAt_id T).sub_const 273.15).div_const 10
  have htanh : HasDerivAt (fun T : ℝ => Real.tanh ((T - 273.15) / 10))
      ((1 - Real.tanh ((T - 273.15) / 10) ^ 2) * (1 / 10)) T :=
    (hasDerivAt_tanh ((T - 273.15) / 10)).comp T harg
  have hin : HasDerivAt
      (fun T : ℝ => (0.55 + 0.15 * Real.tanh ((T - 273.15) / 10)) * (1365 / 4))
      (0.15 * ((1 - Real.tanh ((T - 273.15) / 10) ^ 2) * (1 / 10)) * (1365 / 4)) T :=
    ((htanh.const_mul 0.15).const_add 0.55).mul_const (1365 / 4)
  have hlin : HasDerivAt (fun T : ℝ => 0.61 + 0.0001 * (T - 273.15)) 0.0001 T := by
    simpa using (((hasDerivAt_id T).sub_const 273.15).const_mul 0.0001).const_add 0.61
  have hpow : HasDerivAt (fun T : ℝ => T ^ 4) (4 * T ^ 3) T := by
    simpa using hasDerivAt_pow 4 T
  have hout : HasDerivAt
      (fun T : ℝ => (0.61 + 0.0001 * (T - 273.15)) * 5.67e-8 * T ^ 4)
      (0.0001 * 5.67e-8 * T ^ 4 +
        (0.61 + 0.0001 * (T - 273.15)) * 5.67e-8 * (4 * T ^ 3)) T := by
    have h := (hlin.mul_const (5.67e-8)).mul hpow
    convert h using 1
  exact hin.sub hout

theorem one_sub_tanh_sq_nonneg (x : ℝ) : 0 ≤ 1 - Real.tanh x ^ 2 := by
  nlinarith [tanh_lt_one x, neg_one_lt_tanh x]

theorem one_sub_tanh_sq_le (x : ℝ) (hx : 0 ≤ x) :
    1 - Real.tanh x ^ 2 ≤ 1 / (1 + x ^ 2) := by
  have hc := Real.cosh_pos x
  have hs : x ≤ Real.sinh x := Real.self_le_sinh_iff.mpr hx
  have hsq : 1 + x ^ 2 ≤ Real.cosh x ^ 2 := by
    rw [Real.cosh_sq]
    nlinarith
  have h1 : 1 - Real.tanh x ^ 2 = 1 / Real.cosh x ^ 2 := by
    rw [Real.tanh_eq_sinh_div_cosh, div_pow]
    field_simp
  rw [h1]
  exact one_div_le_one_div_of_le (by positivity) hsq

theorem balance_deriv_upper (T : ℝ) (h1 : 283 ≤ T) (_h2 : T ≤ 290) :
    balance_deriv T ≤ -0.57 := by
  have hx : (0 : ℝ) ≤ (T - 273.15) / 10 := by linarith
  have hs := one_sub_tanh_sq_le ((T - 273.15) / 10) hx
  have hmono : 1 / (1 + ((T - 273.15) / 10) ^ 2) ≤ 1 / (1 + (0.985 : ℝ) ^ 2) := by
    apply one_div_le_one_div_of_le
    · positivity
    · nlinarith
  have hsech : 1 - Real.tanh ((T - 273.15) / 10) ^ 2 ≤ 1 / (1 + (0.985 : ℝ) ^ 2) :=
    le_trans hs hmono
  have hT0 : (0 : ℝ) ≤ T := by linarith
  have hT3 : (283 : ℝ) ^ 3 ≤ T ^ 3 := pow_le_pow_left₀ (by norm_num) h1 3
  have hT4 : (283 : ℝ) ^ 4 ≤ T ^ 4 := pow_le_pow_left₀ (by norm_num) h1 4
  rw [balance_deriv]
  nlinarith [hsech, hT3, hT4]

theorem balance_deriv_lower (T : ℝ) (h1 : 283 ≤ T) (h2 : T ≤ 290) :
    -3.43 ≤ balance_deriv T := by
  have hs := one_sub_tanh_sq_nonneg ((T - 273.15) / 10)
  have hT0 : (0 : ℝ) ≤ T := by linarith
  have hT3 : T ^ 3 ≤ (290 : ℝ) ^ 3 := pow_le_pow_left₀ hT0 h2 3
  have hT4 : T ^ 4 ≤ (290 : ℝ) ^ 4 := pow_le_pow_left₀ hT0 h2 4
  rw [balance_deriv]
  nlinarith [hs, hT3, hT4]

theorem exp_0985_lower : (2.668 : ℝ) ≤ Real.exp 0.985 := by
  have h := Real.sum_le_exp_of_nonneg (show (0 : ℝ) ≤ 0.985 by norm_num) 5
  have hsum : ∑ i ∈ Finset.range 5, (0.985 : ℝ) ^ i / (Nat.factorial i) =
      1 + 0.985 + 0.985 ^ 2 / 2 + 0.985 ^ 3 / 6 + 0.985 ^ 4 / 24 := by
    simp [Finset.sum_range_succ, Nat.factorial]
  rw [hsum] at h
  nlinarith [h]

theorem tanh_0985_lower : (0.68 : ℝ) ≤ Real.tanh 0.985 := by
  have hage : (2.668 : ℝ) ≤ Real.exp 0.985 := exp_0985_lower
  have hbpos : 0 < Real.exp (-0.985) := Real.exp_pos _
  have hab : Real.exp 0.985 * Real.exp (-0.985) = 1 := by
    rw [← Real.exp_add]
    norm_num
  have hbinv : (Real.exp 0.985)⁻¹ = Real.exp (-0.985) :=
    inv_eq_of_mul_eq_one_right hab
  have hb_le : Real.exp (-0.985) ≤ 1 / 2.668 := by
    rw [← hbinv, inv_eq_one_div]
    exact one_div_le_one_div_of_le (by norm_num) hage
  rw [Real.tanh_eq_sinh_div_cosh, Real.sinh_eq, Real.cosh_eq]
  have hpos : 0 < (Real.exp 0.985 + Real.exp (-0.985)) / 2 := by positivity
  rw [le_div_iff₀ hpos]
  nlinarith [hage, hb_le, hbpos]

theorem balance_smooth_283_pos : 0 < balance_smooth 283 := by
  have harg : ((283 : ℝ) - 273.15) / 10 = 0.985 := by norm_num
  rw [balance_smooth, harg]
  nlinarith [tanh_0985_lower]

theorem balance_smooth_290_neg : balance_smooth 290 < 0 := by
  have harg : ((290 : ℝ) - 273.15) / 10 = 1.685 := by norm_num
  rw [balance_smooth, harg]
  nlinarith [tanh_lt_one 1.685]


theorem hasDerivAt_step_smooth (T : ℝ) :
    HasDerivAt step_smooth (1 + 0.1 * balance_deriv T) T :=
  (hasDerivAt_id' T).add ((hasDerivAt_balance_smooth T).const_mul 0.1)

theorem balance_smooth_contOn :
    ContinuousOn balance_smooth (Set.Icc (283 : ℝ) 290) := fun x _ =>
  (hasDerivAt_balance_smooth x).continuousAt.continuousWithinAt

theorem balance_smooth_diffOn :
    DifferentiableOn ℝ balance_smooth (interior (Set.Icc (283 : ℝ) 290)) := fun x _ =>
  (hasDerivAt_balance_smooth x).differentiableAt.differentiableWithinAt

theorem step_smooth_contOn :
    ContinuousOn step_smooth (Set.Icc (283 : ℝ) 290) := fun x _ =>
  (hasDerivAt_step_smooth x).continuousAt.continuousWithinAt

theorem step_smooth_diffOn :
    DifferentiableOn ℝ step_smooth (interior (Set.Icc (283 : ℝ) 290)) := fun x _ =>
  (hasDerivAt_step_smooth x).differentiableAt.differentiableWithinAt

/-- On the warm window the balance decreases with slope at least 0.57. -/
theorem balance_smooth_decrease (a b : ℝ) (ha : a ∈ Set.Icc (283 : ℝ) 290)
    (hb : b ∈ Set.Icc (283 : ℝ) 290) (hab : a ≤ b) :
    balance_smooth b - balance_smooth a ≤ -0.57 * (b - a) := by
  apply (convex_Icc (283 : ℝ) 290).image_sub_le_mul_sub_of_deriv_le
    balance_smooth_contOn balance_smooth_diffOn ?_ a ha b hb hab
  intro x hx
  rw [interior_Icc, Set.mem_Ioo] at hx
  rw [(hasDerivAt_balance_smooth x).deriv]
  exact balance_deriv_upper x hx.1.le hx.2.le

/-- On the warm window the balance decreases with slope at most 3.43. -/
theorem balance_smooth_decrease_bound (a b : ℝ) (ha : a ∈ Set.Icc (283 : ℝ) 290)
    (hb : b ∈ Set.Icc (283 : ℝ) 290) (hab : a ≤ b) :
    -3.43 * (b - a) ≤ balance_smooth b - balance_smooth a := by
  apply (convex_Icc (283 : ℝ) 290).mul_sub_le_image_sub_of_le_deriv
    balance_smooth_contOn balance_smooth_diffOn ?_ a ha b hb hab
  intro x hx
  rw [interior_Icc, Set.mem_Ioo] at hx
  rw [(hasDerivAt_balance_smooth x).deriv]
  exact balance_deriv_lower x hx.1.le hx.2.le

theorem step_smooth_upper (a b : ℝ) (ha : a ∈ Set.Icc (283 : ℝ) 290)
    (hb : b ∈ Set.Icc (283 : ℝ) 290) (hab : a ≤ b) :
    step_smooth b - step_smooth a ≤ 0.943 * (b - a) := by
  apply (convex_Icc (283 : ℝ) 290).image_sub_le_mul_sub_of_deriv_le
    step_smooth_contOn step_smooth_diffOn ?_ a ha b hb hab
  intro x hx
  rw [interior_Icc, Set.mem_Ioo] at hx
  rw [(hasDerivAt_step_smooth x).deriv]
  have := balance_deriv_upper x hx.1.le hx.2.le
  linarith

theorem step_smooth_lower (a b : ℝ) (ha : a ∈ Set.Icc (283 : ℝ) 290)
    (hb : b ∈ Set.Icc (283 : ℝ) 290) (hab : a ≤ b) :
    0.657 * (b - a) ≤ step_smooth b - step_smooth a := by
  apply (convex_Icc (283 : ℝ) 290).mul_sub_le_image_sub_of_le_deriv
    step_smooth_contOn step_smooth_diffOn ?_ a ha b hb hab
  intro x hx
  rw [interior_Icc, Set.mem_Ioo] at hx
  rw [(hasDerivAt_step_smooth x).deriv]
  have := balance_deriv_lower x hx.1.le hx.2.le
  linarith

/-- The update map is a 0.943-contraction on the warm window. -/
theorem step_smooth_contract (a b : ℝ) (ha : a ∈ Set.Icc (283 : ℝ) 290)
    (hb : b ∈ Set.Icc (283 : ℝ) 290) :
    |step_smooth b - step_smooth a| ≤ 0.943 * |b - a| := by
  rcases le_total a b with hab | hab
  · have h1 := step_smooth_upper a b ha hb hab
    have h2 := step_smooth_lower a b ha hb hab
    rw [abs_of_nonneg (by linarith), abs_of_nonneg (by linarith)]
    exact h1
  · have h1 := step_smooth_upper b a hb ha hab
    have h2 := step_smooth_lower b a hb ha hab
    rw [abs_sub_comm, abs_sub_comm b a,
      abs_of_nonneg (by linarith), abs_of_nonneg (by linarith)]
    exact h1

/-- The update map sends the warm window into itself. -/
theorem step_smooth_mem (T : ℝ) (hT : T ∈ Set.Icc (283 : ℝ) 290) :
    step_smooth T ∈ Set.Icc (283 : ℝ) 290 := by
  have hlo : (283 : ℝ) ∈ Set.Icc (283 : ℝ) 290 := by norm_num
  have hhi : (290 : ℝ) ∈ Set.Icc (283 : ℝ) 290 := by norm_num
  have h1 := step_smooth_lower 283 T hlo hT hT.1
  have h2 := step_smooth_lower T 290 hT hhi hT.2
  have h3 : 283 ≤ step_smooth 283 := by
    rw [step_smooth]
    linarith [balance_smooth_283_pos]
  have h4 : step_smooth 290 ≤ 290 := by
    rw [step_smooth]
    linarith [balance_smooth_290_neg]
  exact ⟨by linarith [hT.1], by linarith [hT.2]⟩

/-- The warm balance point: existence on the window [283, 290]. -/
theorem balance_smooth_exists_root :
    ∃ Ts ∈ Set.Icc (283 : ℝ) 290, balance_smooth Ts = 0 := by
  have h0 : (0 : ℝ) ∈ Set.Icc (balance_smooth 290) (balance_smooth 283) :=
    ⟨balance_smooth_290_neg.le, balance_smooth_283_pos.le⟩
  have := intermediate_value_Icc' (by norm_num : (283 : ℝ) ≤ 290)
    balance_smooth_contOn h0
  obtain ⟨Ts, hTs, hval⟩ := this
  exact ⟨Ts, hTs, hval⟩

theorem clip_eq_self (x lo hi : ℝ) (h1 : lo ≤ x) (h2 : x ≤ hi) : clip x lo hi = x := by
  rw [clip, max_eq_left h1, min_eq_left h2]

/-- On the warm window the solver update step agrees with the unclipped
smooth update map. -/
theorem solver_step_eq_smooth (T : ℝ) (hT : T ∈ Set.Icc (283 : ℝ) 290) :
    solver_step 1 T = step_smooth T := by
  have hmem := step_smooth_mem T hT
  rw [solver_step, energy_balance_eq_smooth T hT.1 hT.2]
  show clip (step_smooth T) 150 400 = step_smooth T
  exact clip_eq_self _ _ _ (by linarith [hmem.1]) (by linarith [hmem.2])

/-- Starting from 288 K the smooth update trajectory stays on the warm
window and approaches the balance point geometrically. -/
theorem trajectory_mem_and_close (Ts : ℝ) (hTs : Ts ∈ Set.Icc (283 : ℝ) 290)
    (hroot : balance_smooth Ts = 0) :
    ∀ k : ℕ, step_smooth^[k] 288 ∈ Set.Icc (283 : ℝ) 290 ∧
      |step_smooth^[k] 288 - Ts| ≤ 0.943 ^ k * 5 := by
  have hfix : step_smooth Ts = Ts := by rw [step_smooth, hroot]; ring
  intro k
  induction k with
  | zero =>
    simp only [Function.iterate_zero_apply, pow_zero, one_mul]
    refine ⟨by norm_num [Set.mem_Icc], ?_⟩
    rw [abs_le]
    exact ⟨by linarith [hTs.2], by linarith [hTs.1]⟩
  | succ k ih =>
    rw [Function.iterate_succ_apply']
    refine ⟨step_smooth_mem _ ih.1, ?_⟩
    have hc := step_smooth_contract Ts (step_smooth^[k] 288) hTs ih.1
    rw [hfix] at hc
    calc |step_smooth (step_smooth^[k] 288) - Ts|
        ≤ 0.943 * |step_smooth^[k] 288 - Ts| := hc
      _ ≤ 0.943 * (0.943 ^ k * 5) :=
          mul_le_mul_of_nonneg_left ih.2 (by norm_num)
      _ = 0.943 ^ (k + 1) * 5 := by ring

theorem balance_smooth_abs_le (a b : ℝ) (ha : a ∈ Set.Icc (283 : ℝ) 290)
    (hb : b ∈ Set.Icc (283 : ℝ) 290) :
    |balance_smooth b - balance_smooth a| ≤ 3.43 * |b - a| := by
  rcases le_total a b with hab | hab
  · have h1 := balance_smooth_decrease a b ha hb hab
    have h2 := balance_smooth_decrease_bound a b ha hb hab
    rw [abs_of_nonneg (by linarith : (0 : ℝ) ≤ b - a), abs_le]
    constructor <;> linarith
  · have h1 := balance_smooth_decrease b a hb ha hab
    have h2 := balance_smooth_decrease_bound b a hb ha hab
    rw [abs_sub_comm, abs_sub_comm b a,
      abs_of_nonneg (by linarith : (0 : ℝ) ≤ a - b), abs_le]
    constructor <;> linarith

theorem balance_smooth_gap (a b : ℝ) (ha : a ∈ Set.Icc (283 : ℝ) 290)
    (hb : b ∈ Set.Icc (283 : ℝ) 290) :
    0.57 * |b - a| ≤ |balance_smooth b - balance_smooth a| := by
  rcases le_total a b with hab | hab
  · have h1 := balance_smooth_decrease a b ha hb hab
    rw [abs_of_nonneg (by linarith : (0 : ℝ) ≤ b - a),
      abs_of_nonpos (by linarith : balance_smooth b - balance_smooth a ≤ 0)]
    linarith
  · have h1 := balance_smooth_decrease b a hb ha hab
    rw [abs_sub_comm b a, abs_sub_comm (balance_smooth b) (balance_smooth a),
      abs_of_nonneg (by linarith : (0 : ℝ) ≤ a - b),
      abs_of_nonpos (by linarith : balance_smooth a - balance_smooth b ≤ 0)]
    linarith

/-- If some iterate within the budget brings the balance below the
tolerance, the loop reports convergence, stays on the warm window, and
stops at a temperature whose balance is below the tolerance. -/
theorem loop_converges_of_small_balance :
    ∀ (n : ℕ) (T : ℝ), T ∈ Set.Icc (283 : ℝ) 290 →
      (∃ j, j < n ∧ |balance_smooth (step_smooth^[j] T)| < 0.01) →
      (find_equilibrium_loop 1 0.01 n T).2 = true ∧
        (find_equilibrium_loop 1 0.01 n T).1 ∈ Set.Icc (283 : ℝ) 290 ∧
        |balance_smooth ((find_equilibrium_loop 1 0.01 n T).1)| < 0.01 := by
  intro n
  induction n with
  | zero =>
    rintro T _ ⟨j, hj, _⟩
    exact absurd hj (Nat.not_lt_zero j)
  | succ k ih =>
    intro T hT hex
    rw [find_equilibrium_loop_succ]
    by_cases hb : |energy_balance T 1| < 0.01
    · rw [if_pos hb]
      refine ⟨rfl, hT, ?_⟩
      rw [← energy_balance_eq_smooth T hT.1 hT.2]
      exact hb
    · rw [if_neg hb]
      obtain ⟨j, hj, hsmall⟩ := hex
      have hj0 : j ≠ 0 := by
        rintro rfl
        rw [Function.iterate_zero_apply,
          ← energy_balance_eq_smooth T hT.1 hT.2] at hsmall
        exact hb hsmall
      obtain ⟨j', rfl⟩ := Nat.exists_eq_succ_of_ne_zero hj0
      rw [solver_step_eq_smooth T hT]
      apply ih (step_smooth T) (step_smooth_mem T hT)
      refine ⟨j', by omega, ?_⟩
      rw [← Function.iterate_succ_apply]
      exact hsmall

theorem contraction_numeric : (0.943 : ℝ) ^ 130 * 5 * 3.43 < 0.01 := by
  norm_num

/-- C9.  For initial_temp = 288, solar_multiplier = 1.0 and the default
budget max_iterations = 1000 and tolerance = 0.01, the solver reports
converged = true and returns a temperature within 1 K of the unique warm
equilibrium: the balance function has exactly one zero Ts on the warm
window [283, 290] (which contains 288), the balance is strictly decreasing
there (so the equilibrium is stable), and the returned temperature differs
from Ts by at most 1 K. -/
theorem solver_present_day_convergence :
    ∃ Ts : ℝ, Ts ∈ Set.Icc (283 : ℝ) 290 ∧ energy_balance Ts 1 = 0 ∧
      (∀ T ∈ Set.Icc (283 : ℝ) 290, energy_balance T 1 = 0 → T = Ts) ∧
      (∀ a ∈ Set.Icc (283 : ℝ) 290, ∀ b ∈ Set.Icc (283 : ℝ) 290, a < b →
        energy_balance b 1 < energy_balance a 1) ∧
      (find_equilibrium_temperature 288 1 1000 0.01).2 = true ∧
      |(find_equilibrium_temperature 288 1 1000 0.01).1 - Ts| ≤ 1 := by
  obtain ⟨Ts, hTs, hroot⟩ := balance_smooth_exists_root
  have hanti : ∀ a ∈ Set.Icc (283 : ℝ) 290, ∀ b ∈ Set.Icc (283 : ℝ) 290, a < b →
      energy_balance b 1 < energy_balance a 1 := by
    intro a ha b hb hab
    rw [energy_balance_eq_smooth a ha.1 ha.2, energy_balance_eq_smooth b hb.1 hb.2]
    have := balance_smooth_decrease a b ha hb hab.le
    nlinarith
  have h130 : |balance_smooth (step_smooth^[130] 288)| < 0.01 := by
    obtain ⟨hmem, hclose⟩ := trajectory_mem_and_close Ts hTs hroot 130
    have hlip := balance_smooth_abs_le Ts (step_smooth^[130] 288) hTs hmem
    rw [hroot, sub_zero] at hlip
    have habs : (0 : ℝ) ≤ |step_smooth^[130] 288 - Ts| := abs_nonneg _
    calc |balance_smooth (step_smooth^[130] 288)|
        ≤ 3.43 * |step_smooth^[130] 288 - Ts| := hlip
      _ ≤ 3.43 * (0.943 ^ 130 * 5) := by nlinarith [hclose]
      _ < 0.01 := by nlinarith [contraction_numeric]
  have hconv := loop_converges_of_small_balance 1000 288
    (by norm_num [Set.mem_Icc]) ⟨130, by norm_num, h130⟩
  have heq : find_equilibrium_temperature 288 1 1000 0.01 =
      find_equilibrium_loop 1 0.01 1000 288 := rfl
  refine ⟨Ts, hTs, ?_, ?_, hanti, ?_, ?_⟩
  · rw [energy_balance_eq_smooth Ts hTs.1 hTs.2]
    exact hroot
  · intro T hT hval
    rw [energy_balance_eq_smooth T hT.1 hT.2] at hval
    by_contra hne
    rcases lt_or_gt_of_ne hne with h | h
    · have hd := balance_smooth_decrease T Ts hT hTs h.le
      rw [hroot, hval] at hd
      nlinarith
    · have hd := balance_smooth_decrease Ts T hTs hT h.le
      rw [hroot, hval] at hd
      nlinarith
  · rw [heq]
    exact hconv.1
  · rw [heq]
    have hgap := balance_smooth_gap Ts ((find_equilibrium_loop 1 0.01 1000 288).1)
      hTs hconv.2.1
    rw [hroot, sub_zero] at hgap
    have hsmall := hconv.2.2
    have habs : (0 : ℝ) ≤ |(find_equilibrium_loop 1 0.01 1000 288).1 - Ts| :=
      abs_nonneg _
    linarith
